import Mathlib

/-!
Verification of the BookServer route modules `bookserver/routers/books.py`
and `bookserver/routers/rslogging.py`.

The Python code is shallowly embedded: pure path manipulation becomes Lean
functions over `String`, request handlers become functions from their inputs
(settings, collaborator stores, the authenticated user, URL parameters) to an
explicit result; an uncaught Python exception is modelled as `Except.error`,
and database writes are returned as an explicit list of persisted records.

String primitives are implemented over `String.data` (lists of characters),
mirroring the CPython implementations of `posixpath.normpath`,
`posixpath.join`, `os.path.split`, `os.path.splitext` and `os.path.basename`,
so that every definition evaluates inside the kernel.
-/

namespace BookServer

/-! ### Kernel-reducible string primitives -/

/-- Python `s.startswith(pre)`. -/
def pyStartsWith (s pre : String) : Bool :=
  pre.data.isPrefixOf s.data

/-- Python `c in s` for a single-character string `c`. -/
def pyContainsChar (s : String) (c : Char) : Bool :=
  s.data.contains c

/-- Python `s.split("/")`: split on every slash, no collapsing. -/
def pySplitSlash (s : String) : List String :=
  (List.splitOn '/' s.data).map String.mk

/-- Python `"/".join(l)`. -/
def pyIntercalateSlash (l : List String) : String :=
  String.mk (List.intercalate ['/'] (l.map String.data))

/-- Python `s.endswith("/")`. -/
def pyEndsWithSlash (s : String) : Bool :=
  s.data.getLast? == some '/'

/-! ### `posixpath.normpath`

Transcribed from CPython `posixpath.py`: drop empty and `.` components,
resolve `..` against preceding components, keep leading `..` components for
relative paths, and preserve the POSIX one-vs-two leading-slash distinction.
-/

/-- One iteration of the component loop inside `posixpath.normpath`. -/
def normpathStep (initialSlashes : Bool) (newComps : List String) (comp : String) :
    List String :=
  if comp == "" || comp == "." then newComps
  else if comp != ".." || (!initialSlashes && newComps.isEmpty) ||
      (!newComps.isEmpty && newComps.getLast? == some "..") then
    newComps ++ [comp]
  else if !newComps.isEmpty then newComps.dropLast
  else newComps

/-- CPython `posixpath.normpath(path)`. -/
def normpath (path : String) : String :=
  if path == "" then "."
  else
    let initialSlashes : Nat :=
      if pyStartsWith path "/" then
        if pyStartsWith path "//" && !(pyStartsWith path "///") then 2 else 1
      else 0
    let comps := pySplitSlash path
    let newComps := comps.foldl (normpathStep (initialSlashes != 0)) []
    let result := String.mk (List.replicate initialSlashes '/') ++
      pyIntercalateSlash newComps
    if result == "" then "." else result

/-! ### `posixpath.join` -/

/-- One iteration of the loop inside `posixpath.join`: an absolute component
restarts the path, otherwise a slash is inserted unless one is present. -/
def joinStep (path b : String) : String :=
  if pyStartsWith b "/" then b
  else if path == "" || pyEndsWithSlash path then path ++ b
  else path ++ "/" ++ b

/-- CPython `posixpath.join(a, *p)`. -/
def posixJoin (a : String) (p : List String) : String :=
  p.foldl joinStep a

/-! ### `safe_join` (books.py)

`_os_alt_seps` is the list of platform path separators other than `"/"`
(`os.path.sep` / `os.path.altsep`); both are single characters on every
CPython platform, so it is modelled as a `List Char` parameter (empty on
POSIX, `['\\']` on Windows).  `os.path.isabs` is modelled with its POSIX
meaning (a leading slash), matching the forward-slash convention of the rest
of the function.
-/

/-- The conditional normalization at the top of the `safe_join` loop body:
`posixpath.normpath` applied to non-empty segments only. -/
def normSeg (filename : String) : String :=
  if filename != "" then normpath filename else filename

/-- The body of the `for filename in pathnames` loop of `safe_join`: normalize
the non-empty segment, then reject alternate separators, absolute paths and
any `..` escape; on success return the normalized segment to be appended. -/
def checkSegment (altSeps : List Char) (filename : String) : Option String :=
  let filename := normSeg filename
  if altSeps.any (fun sep => pyContainsChar filename sep) then none
  else if pyStartsWith filename "/" || filename == ".." ||
      pyStartsWith filename "../" then none
  else some filename

/-- Run `checkSegment` over all untrusted segments, collecting the parts that
`safe_join` appends to `parts`; `none` as soon as one segment is rejected. -/
def checkSegments (altSeps : List Char) : List String → Option (List String)
  | [] => some []
  | f :: fs =>
    match checkSegment altSeps f with
    | none => none
    | some g => (checkSegments altSeps fs).map (fun rest => g :: rest)

/-- Function `safe_join(directory, *pathnames)` from `books.py` (copied there verbatim
from werkzeug): `None` when some untrusted segment is rejected, otherwise
`posixpath.join(directory, *normalized_segments)`. -/
def safe_join (altSeps : List Char) (directory : String) (pathnames : List String) :
    Option String :=
  (checkSegments altSeps pathnames).map (fun parts => posixJoin directory parts)

/-! ### `os.path` helpers used by `serve_page` (POSIX) -/

/-- CPython `os.path.split(p)`: split after the last slash; strip trailing slashes
from the head unless the head consists of slashes only. -/
def os_path_split (p : String) : String × String :=
  let cs := p.data
  let tailLen := (cs.reverse.takeWhile (fun c => c != '/')).length
  let head := cs.take (cs.length - tailLen)
  let tail := cs.drop (cs.length - tailLen)
  let headStr :=
    if !head.isEmpty && head.any (fun c => c != '/') then
      String.mk ((head.reverse.dropWhile (fun c => c == '/')).reverse)
    else String.mk head
  (headStr, String.mk tail)

/-- CPython `os.path.basename(p)`: everything after the last slash. -/
def os_path_basename (p : String) : String :=
  String.mk (p.data.reverse.takeWhile (fun c => c != '/')).reverse

/-- Python `s.rfind(c)`: index of the last occurrence, `-1` when absent. -/
def pyRfind (cs : List Char) (c : Char) : Int :=
  match cs.reverse.findIdx? (fun x => x == c) with
  | some j => (cs.length : Int) - 1 - (j : Int)
  | none => -1

/-- CPython `os.path.splitext(p)`: split at the last dot when it lies after the last
slash and the filename does not consist of leading dots only. -/
def os_path_splitext (p : String) : String × String :=
  let cs := p.data
  let sepIndex := pyRfind cs '/'
  let dotIndex := pyRfind cs '.'
  if sepIndex < dotIndex then
    let fname := (cs.take dotIndex.toNat).drop (sepIndex + 1).toNat
    if fname.any (fun c => c != '.') then
      (String.mk (cs.take dotIndex.toNat), String.mk (cs.drop dotIndex.toNat))
    else (p, "")
  else (p, "")

/-! ### Data model -/

/-- The configuration values `books.py` reads from `settings`. -/
structure Settings where
  book_path : String
  login_url : String

/-- The course row returned by the `fetch_course` collaborator, restricted to
the attributes `books.py` reads. -/
structure CourseRow where
  id : Nat
  base_course : String
  login_required : Bool
  downloads_enabled : Bool
  allow_pairs : Bool
deriving DecidableEq, Repr

/-- The authenticated user placed in `request.state.user` by the session
middleware; `none` in the handlers means an anonymous request. -/
structure User where
  username : String
  email : String
  course_name : String
deriving DecidableEq, Repr

/-- Modelled from the spec: `UseinfoValidation` (`models.py`, not under
`src/`) as visible from its two call sites — event kind, action, target div,
course id, subject id and timestamp. -/
structure UseinfoEntry where
  event : String
  act : String
  div_id : String
  course_id : String
  sid : String
  timestamp : Nat
deriving DecidableEq, Repr

/-- A value of the page render context: strings, the optional root-path
string, Python booleans, the request and settings objects, and the empty
`readings` list. -/
inductive CtxVal where
  | str (s : String)
  | optStr (s : Option String)
  | bool (b : Bool)
  | request
  | settingsVal
  | strList (l : List String)
deriving DecidableEq, Repr

/-- An uncaught Python exception escaping a handler (surfaced by the host
framework as a 500 response, not as an `HTTPException`). -/
inductive PyError where
  | typeError (msg : String)
  | attributeError (msg : String)
deriving DecidableEq, Repr

/-- The response a handler produces: a streamed file, a raised
`HTTPException`, a redirect, or a rendered template (the template directory,
the page path, the assembled context and whether the PreTeXt delimiter
reconfiguration was applied). -/
inductive Response where
  | fileResponse (path : String)
  | httpError (status : Nat) (detail : String)
  | redirect (url : String)
  | template (dir page : String) (context : List (String × CtxVal))
      (pretextDelims : Bool)
deriving DecidableEq, Repr

/-! ### `return_static_asset` (books.py) -/

/-- Function `return_static_asset(course, kind, filepath)` from `books.py`.

`fetch_course` is the collaborator `courses`; the filesystem is the list
`fs` of existing paths.  The source checks neither the course row for `None`
(`course_row.base_course` then raises `AttributeError`) nor the `safe_join`
result for `None` (`os.path.exists(None)` raises `TypeError`, since CPython
`genericpath.exists` catches only `OSError` and `ValueError`); both uncaught
exceptions are modelled as `Except.error`. -/
def return_static_asset (cfg : Settings) (altSeps : List Char)
    (courses : String → Option CourseRow) (fs : List String)
    (course kind filepath : String) : Except PyError Response :=
  match courses course with
  | none => .error (.attributeError "NoneType object has no attribute base_course")
  | some course_row =>
    match safe_join altSeps cfg.book_path
        [course_row.base_course, "build", course_row.base_course, kind, filepath] with
    | none => .error (.typeError
        "stat: path should be string, bytes, os.PathLike or integer, not NoneType")
    | some fp =>
      if fs.contains fp then .ok (.fileResponse fp)
      else .ok (.httpError 404 "")

/-! ### `log_book_event` (rslogging.py) -/

/-- Modelled from the spec: `LogItemIncoming` (`schemas.py`, not under
`src/`) — the JSON body `{event, act, div_id, course_name, sid, timestamp,
...kind-specific fields}`; the kind-specific fields are kept as a key-value
list `extra`. -/
structure LogItemIncoming where
  event : String
  act : String
  div_id : String
  course_name : String
  sid : String
  timestamp : Nat
  extra : List (String × String)
deriving DecidableEq, Repr

/-- Modelled from the spec: the kind-specific answer record built by
`validation_tables[table_name].from_orm(entry)` (`models.py`, not under
`src/`) — a record for table `table` constructed from the same (stamped)
payload. -/
structure AnswerRecord where
  table : String
  entry : LogItemIncoming
deriving DecidableEq, Repr

/-- A row persisted by the logging endpoint: a primary `useinfo` event or a
kind-specific answer record. -/
inductive LogRecord where
  | useinfo (u : UseinfoEntry)
  | answer (a : AnswerRecord)
deriving DecidableEq, Repr

/-- The JSON reply of `log_book_event`, or the 422 produced when
`UseinfoValidation` rejects the translated payload. -/
inductive LogResponse where
  | ok (idx : Nat)
  | fail
  | validationError
deriving DecidableEq, Repr

/-- What a run of `log_book_event` produces: the reply and the list of rows
persisted during the run, in insertion order. -/
structure LogResult where
  response : LogResponse
  records : List LogRecord
deriving DecidableEq, Repr

/-- The subject id the server stamps into a payload: the authenticated
username, else the literal `"Anonymous"`. -/
def sidOf (user : Option User) : String :=
  match user with
  | some u => u.username
  | none => "Anonymous"

/-- The overwriting `log_book_event` performs on the incoming payload before
persisting: subject id from the session, timestamp from the server clock. -/
def stampEntry (user : Option User) (now : Nat) (entry : LogItemIncoming) :
    LogItemIncoming :=
  { entry with sid := sidOf user, timestamp := now }

/-- Translation `entry.dict()` with `course_name` renamed to `course_id`, the input of
`UseinfoValidation` (extra fields are ignored by the pydantic model). -/
def toUseinfo (e : LogItemIncoming) : UseinfoEntry :=
  { event := e.event, act := e.act, div_id := e.div_id,
    course_id := e.course_name, sid := e.sid, timestamp := e.timestamp }

/-- Endpoint `log_book_event` from `rslogging.py`.

Collaborators: `e2t` is `EVENT2TABLE` (`crud.py`, not under `src/`;
abstracted as a map from event kind to answer-table name), `useinfoOk` is the
revalidation performed by `UseinfoValidation` (a failure surfaces as a 422
per the source comment, before anything is persisted), and `genIdx` is the
identifier `create_useinfo_entry` returns (`None` and `0` are both falsy in
`if idx:`). -/
def log_book_event (user : Option User) (now : Nat)
    (e2t : String → Option String) (useinfoOk : UseinfoEntry → Bool)
    (genIdx : Option Nat) (entry : LogItemIncoming) : LogResult :=
  let entry := stampEntry user now entry
  let useinfo := toUseinfo entry
  if useinfoOk useinfo then
    let records := [LogRecord.useinfo useinfo]
    let records :=
      match e2t entry.event with
      | some table => records ++ [LogRecord.answer { table := table, entry := entry }]
      | none => records
    { response :=
        match genIdx with
        | some idx => if idx != 0 then .ok idx else .fail
        | none => .fail
      records := records }
  else
    { response := .validationError, records := [] }

/-! ### `set_tz_offset` (rslogging.py) -/

/-- A JSON value stored in the `RS_info` preference cookie. -/
inductive JsonVal where
  | str (s : String)
  | num (n : Int)
  | bool (b : Bool)
  | null
deriving DecidableEq, Repr

/-- Python `values[k] = v` on a dict rendered as a key-value list: replace
the entry holding the key when present, otherwise append it. -/
def dictSet : List (String × α) → String → α → List (String × α)
  | [], k, v => [(k, v)]
  | kv :: rest, k, v =>
    if kv.1 == k then (k, v) :: rest else kv :: dictSet rest k v

/-- Python dict lookup on a key-value list. -/
def dictGet (values : List (String × α)) (k : String) : Option α :=
  (values.find? (fun kv => kv.1 == k)).map (fun kv => kv.2)

/-- Endpoint `set_tz_offset` from `rslogging.py`, at the level of the decoded cookie:
`json.loads`/`json.dumps` are treated as the identity codec between the
`RS_info` cookie string and its JSON object, so the endpoint maps the decoded
mapping (`{}` when the cookie is absent) to the decoded rewritten cookie. -/
def set_tz_offset (rsInfo : Option (List (String × JsonVal)))
    (timezoneoffset : Int) : List (String × JsonVal) :=
  let values := match rsInfo with | some v => v | none => []
  dictSet values "tz_offset" (.num timezoneoffset)

/-! ### `serve_page` (books.py) -/

/-- The external collaborators and per-request framework inputs of
`serve_page`: `courses` is `fetch_course`, `attrsOf` is
`fetch_all_course_attributes` (keyed by course id), `activityCounts` is
`fetch_page_activity_counts` applied to chapter, subchapter, base course,
username and course name, `jsonDumps` serializes the activity-info mapping,
`isInstructor` is the value `is_instructor(request)` resolves to, `rootPath`
is `request.scope.get("root_path")`, `templateExists` says whether a page
template exists under a template directory, and `now` is
`datetime.utcnow()`. -/
structure Collaborators where
  courses : String → Option CourseRow
  attrsOf : Nat → List (String × String)
  activityCounts : String → String → String → String → String → List (String × Nat)
  jsonDumps : List (String × Nat) → String
  isInstructor : Bool
  rootPath : Option String
  templateExists : String → String → Bool
  now : Nat

/-- The `user and user.course_name != course_name` test of `serve_page`. -/
def userMismatch (user : Option User) (course_name : String) : Bool :=
  match user with
  | some u => u.course_name != course_name
  | none => false

/-- The `enable_compare_me` defaulting of `serve_page`: insert `"true"` when
the course attributes omit the key. -/
def withCompareDefault (attrs : List (String × String)) : List (String × String) :=
  if attrs.any (fun kv => kv.1 == "enable_compare_me") then attrs
  else attrs ++ [("enable_compare_me", "true")]

/-- Python `values.get(k, d)` on a key-value list. -/
def dictGetD (values : List (String × α)) (k : String) (d : α) : α :=
  match dictGet values k with
  | some v => v
  | none => d

/-- The fixed keyword arguments of the context `dict(...)` call in
`serve_page`, in source order. -/
def fixedContext (course_name : String) (row : CourseRow) (user : Option User)
    (rootPath : Option String) (activityJson logged_in : String)
    (serve_ad user_is_instructor : Bool) : List (String × CtxVal) :=
  [("request", CtxVal.request),
   ("course_name", CtxVal.str course_name),
   ("base_course", CtxVal.str row.base_course),
   ("user_id", CtxVal.str (match user with | some u => u.username | none => "")),
   ("new_server_prefix", CtxVal.optStr rootPath),
   ("user_email", CtxVal.str (match user with | some u => u.email | none => "")),
   ("downloads_enabled", CtxVal.str (if row.downloads_enabled then "true" else "false")),
   ("allow_pairs", CtxVal.str (if row.allow_pairs then "true" else "false")),
   ("activity_info", CtxVal.str activityJson),
   ("settings", CtxVal.settingsVal),
   ("is_logged_in", CtxVal.str logged_in),
   ("serve_ad", CtxVal.bool serve_ad),
   ("is_instructor", CtxVal.str (if user_is_instructor then "true" else "false")),
   ("readings", CtxVal.strList [])]

/-- The names of the fixed keyword arguments of the context `dict(...)`. -/
def fixedCtxKeys : List String :=
  ["request", "course_name", "base_course", "user_id", "new_server_prefix",
   "user_email", "downloads_enabled", "allow_pairs", "activity_info",
   "settings", "is_logged_in", "serve_ad", "is_instructor", "readings"]

/-- The `dict(request=..., ..., **course_attrs)` call of `serve_page`: a
course attribute whose key repeats a fixed keyword argument makes the call
raise `TypeError` (`dict()` rejects duplicate keyword arguments); otherwise
the attributes are appended after the fixed keys. -/
def buildContext (fixed : List (String × CtxVal)) (attrs : List (String × String)) :
    Except PyError (List (String × CtxVal)) :=
  if attrs.any (fun kv => (fixed.map Prod.fst).contains kv.1) then
    .error (.typeError "dict() got multiple values for keyword argument")
  else .ok (fixed ++ attrs.map (fun kv => (kv.1, CtxVal.str kv.2)))

deriving instance DecidableEq for Except

/-- What a run of `serve_page` produces: the response (or uncaught
exception) and the `useinfo` events inserted during the run. -/
structure ServeResult where
  response : Except PyError Response
  events : List UseinfoEntry
deriving DecidableEq, Repr

/-- Endpoint `serve_page(request, course_name, pagepath)` from `books.py`.

The branches mirror the source: resolve the course (404 when absent),
redirect anonymous users of login-required courses to the login url,
redirect authenticated users whose active course differs, derive chapter and
subchapter from the page path, fetch activity counts for authenticated
users, build the template environment from the base course (a rejected
template directory would reach `Jinja2Templates(directory=None)`, whose
loader raises `TypeError`), fetch course attributes, configure PreTeXt
delimiters, default `enable_compare_me`, insert the page-view event
(`UseinfoValidation` applied to these server-built literals is treated as
always passing), assemble the context, and render — `TemplateNotFound` is
caught and surfaced as a 404 naming the page and the base course. -/
def serve_page (cfg : Settings) (altSeps : List Char) (collab : Collaborators)
    (user : Option User) (course_name pagepath : String) : ServeResult :=
  let logged_in := if user.isSome then "true" else "false"
  let user_is_instructor := if user.isSome then collab.isInstructor else false
  let serve_ad := !user.isSome
  match collab.courses course_name with
  | none =>
    { response := .ok (.httpError 404 ("Course " ++ course_name ++ " not found")),
      events := [] }
  | some course_row =>
    if course_row.login_required && user.isNone then
      { response := .ok (.redirect cfg.login_url), events := [] }
    else if userMismatch user course_name then
      { response := .ok (.redirect "/runestone/default/courses"), events := [] }
    else
      let chapter := (os_path_split (os_path_split pagepath).1).2
      let subchapter := os_path_basename (os_path_splitext pagepath).1
      let activity_info :=
        match user with
        | some u =>
          collab.activityCounts chapter subchapter course_row.base_course
            u.username course_name
        | none => []
      match safe_join altSeps cfg.book_path
          [course_row.base_course, "published", course_row.base_course] with
      | none =>
        { response := .error (.typeError
            "expected str, bytes or os.PathLike object, not NoneType"),
          events := [] }
      | some template_dir =>
        let course_attrs := collab.attrsOf course_row.id
        let pretext := dictGetD course_attrs "markup_system" "RST" == "PreTeXt"
        let course_attrs := withCompareDefault course_attrs
        let view : UseinfoEntry :=
          { event := "page", act := "view", div_id := pagepath,
            course_id := course_name, sid := sidOf user, timestamp := collab.now }
        let fixed := fixedContext course_name course_row user collab.rootPath
          (collab.jsonDumps activity_info) logged_in serve_ad user_is_instructor
        match buildContext fixed course_attrs with
        | .error e => { response := .error e, events := [view] }
        | .ok context =>
          if collab.templateExists template_dir pagepath then
            { response := .ok (.template template_dir pagepath context pretext),
              events := [view] }
          else
            { response := .ok (.httpError 404
                ("Page " ++ pagepath ++ " not found in base course " ++
                  course_row.base_course ++ ".")),
              events := [view] }

/-- The rejection condition of the `safe_join` loop on one segment: after
the conditional normalization, the segment contains a platform-alternate
separator, is an absolute path, is exactly `..`, or begins with `../`. -/
def escapeAttempt (altSeps : List Char) (filename : String) : Bool :=
  let f := normSeg filename
  altSeps.any (fun sep => pyContainsChar f sep) || (pyStartsWith f "/" ||
    f == ".." || pyStartsWith f "../")

/-! ### Concrete fixtures for evaluated runs -/

/-- Example settings used by the concrete evaluations. -/
def cfgEx : Settings :=
  { book_path := "/books", login_url := "/runestone/default/user/login" }

/-- An example row for a course named `overview`, not requiring login. -/
def overviewRow : CourseRow :=
  { id := 1, base_course := "overview", login_required := false,
    downloads_enabled := false, allow_pairs := false }

/-- An example row for a course named `secret`, requiring login. -/
def secretRow : CourseRow :=
  { id := 2, base_course := "secret", login_required := true,
    downloads_enabled := false, allow_pairs := false }

/-- A course store holding the `overview` and `secret` courses. -/
def courseStoreEx : String → Option CourseRow :=
  fun name =>
    if name == "overview" then some overviewRow
    else if name == "secret" then some secretRow
    else none

/-- Example collaborators: the store above, no course attributes, no
activity, a template store containing only `index.html` of `overview`. -/
def collabEx : Collaborators :=
  { courses := courseStoreEx
    attrsOf := fun _ => []
    activityCounts := fun _ _ _ _ _ => []
    jsonDumps := fun _ => "{}"
    isInstructor := false
    rootPath := some ""
    templateExists := fun dir page =>
      dir == "/books/overview/published/overview" && page == "index.html"
    now := 1700000000 }

/-- The collaborators above with a course attribute named `user_id` — a key
that collides with a fixed context key. -/
def collabShadow : Collaborators :=
  { collabEx with attrsOf := fun _ => [("user_id", "hacker")] }

/-- A persisted record carries the server-stamped subject id and server
time, in its primary-event fields or in its answer payload. -/
def recordStamped (user : Option User) (now : Nat) : LogRecord → Bool
  | .useinfo u => u.sid == sidOf user && u.timestamp == now
  | .answer a => a.entry.sid == sidOf user && a.entry.timestamp == now

/-- Whether a persisted record is a kind-specific answer record. -/
def isAnswerRecord : LogRecord → Bool
  | .useinfo _ => false
  | .answer _ => true

/-! ## Theorems -/

/-! ### Evaluation cross-checks against CPython behaviour -/

-- Sanity checks against CPython behaviour.
example : normpath "" = "." := by decide
example : normpath "a/../b" = "b" := by decide
example : normpath "a/.." = "." := by decide
example : normpath "//x" = "//x" := by decide
example : normpath "///x" = "/x" := by decide
example : normpath "a//b/./c" = "a/b/c" := by decide
example : normpath "a/../../x" = "../x" := by decide
example : normpath "x/" = "x" := by decide
example : normpath "a/b/../../.." = ".." := by decide
example : posixJoin "/base" ["a", "", "b"] = "/base/a/b" := by decide
example : posixJoin "" ["a"] = "a" := by decide
example : posixJoin "/base/" ["a"] = "/base/a" := by decide
example : safe_join [] "/base" ["a/../b"] = some "/base/b" := by decide
example : safe_join [] "/base" ["../x"] = none := by decide
example : safe_join [] "/base" ["/abs"] = none := by decide
example : safe_join ['\\'] "/base" ["a\\b"] = none := by decide
example : safe_join [] "/base" [""] = some "/base/" := by decide

example : os_path_split "ch1/sub" = ("ch1", "sub") := by decide
example : os_path_split "/a/b/" = ("/a/b", "") := by decide
example : os_path_split "abc" = ("", "abc") := by decide
example : os_path_split "/abc" = ("/", "abc") := by decide
example : os_path_splitext "index.html" = ("index", ".html") := by decide
example : os_path_splitext ".bashrc" = (".bashrc", "") := by decide
example : os_path_splitext "a.b/c" = ("a.b/c", "") := by decide
example : os_path_basename "a/b/c.txt" = "c.txt" := by decide

/-- The key names of `fixedContext` do not depend on the values filled in. -/
theorem fixedContext_keys (course_name : String) (row : CourseRow)
    (user : Option User) (rootPath : Option String)
    (activityJson logged_in : String) (serve_ad user_is_instructor : Bool) :
    (fixedContext course_name row user rootPath activityJson logged_in
      serve_ad user_is_instructor).map Prod.fst = fixedCtxKeys := rfl

/-- A segment the loop accepts is never absolute: the `os.path.isabs` check
rejected a leading slash. -/
theorem checkSegment_not_abs (altSeps : List Char) (f g : String)
    (h : checkSegment altSeps f = some g) : pyStartsWith g "/" = false := by
  simp only [checkSegment] at h
  split at h
  · exact absurd h (by simp)
  · split at h
    · exact absurd h (by simp)
    · rename_i hcond
      cases h
      simp only [Bool.or_eq_true, not_or] at hcond
      exact Bool.not_eq_true _ ▸ Bool.eq_false_iff.mpr hcond.1.1

/-- Every part `safe_join` collects from the untrusted segments is
non-absolute. -/
theorem checkSegments_clean (altSeps : List Char) (fs parts : List String)
    (h : checkSegments altSeps fs = some parts) :
    ∀ b ∈ parts, pyStartsWith b "/" = false := by
  induction fs generalizing parts with
  | nil =>
    simp only [checkSegments, Option.some.injEq] at h
    subst h
    intro b hb
    cases hb
  | cons f fs ih =>
    simp only [checkSegments] at h
    cases hc : checkSegment altSeps f with
    | none => rw [hc] at h; cases h
    | some g =>
      rw [hc] at h
      cases hr : checkSegments altSeps fs with
      | none => rw [hr] at h; cases h
      | some rest =>
        rw [hr] at h
        simp only [Option.map_some', Option.some.injEq] at h
        subst h
        intro b hb
        rcases List.mem_cons.mp hb with rfl | hb2
        · exact checkSegment_not_abs altSeps f b hc
        · exact ih rest hr b hb2

/-- Joining non-absolute parts with `posixpath.join` only ever appends to the
initial path. -/
theorem posixJoin_prefix (parts : List String) (a : String)
    (h : ∀ b ∈ parts, pyStartsWith b "/" = false) :
    ∃ s, posixJoin a parts = a ++ s := by
  induction parts generalizing a with
  | nil =>
    refine ⟨"", ?_⟩
    show a = a ++ ""
    exact (String.append_empty a).symm
  | cons b parts ih =>
    have hb : pyStartsWith b "/" = false := h b (List.mem_cons_self b parts)
    have hrest : ∀ x ∈ parts, pyStartsWith x "/" = false :=
      fun x hx => h x (List.mem_cons_of_mem b hx)
    obtain ⟨s, hs⟩ := ih (joinStep a b) hrest
    have hstep : posixJoin a (b :: parts) = posixJoin (joinStep a b) parts := rfl
    rw [hstep, hs]
    simp only [joinStep, hb, Bool.false_eq_true, if_false]
    by_cases hae : (a == "" || pyEndsWithSlash a) = true
    · rw [if_pos hae]
      exact ⟨b ++ s, (String.append_assoc a b s).symm ▸ rfl⟩
    · rw [if_neg hae]
      refine ⟨"/" ++ (b ++ s), ?_⟩
      rw [← String.append_assoc, ← String.append_assoc]

/-- C1: for every base directory and every sequence of untrusted segments
that `safe_join` accepts, the returned path is the base directory followed by
a (possibly empty) suffix — the result stays lexically inside the base
directory regardless of the requested path content. -/
theorem safe_join_result_prefixed_by_directory (altSeps : List Char)
    (directory : String) (pathnames : List String) (p : String)
    (h : safe_join altSeps directory pathnames = some p) :
    ∃ rest, p = directory ++ rest := by
  unfold safe_join at h
  cases hcs : checkSegments altSeps pathnames with
  | none => rw [hcs] at h; cases h
  | some parts =>
    rw [hcs] at h
    simp only [Option.map_some', Option.some.injEq] at h
    obtain ⟨s, hs⟩ :=
      posixJoin_prefix parts directory (checkSegments_clean altSeps pathnames parts hcs)
    exact ⟨s, by rw [← h, hs]⟩

/-- Witness for `safe_join_result_prefixed_by_directory` at a concrete
traversal-free input. -/
theorem safe_join_result_prefixed_by_directory_witness :
    ∃ rest, "/books/overview/build/overview/_static/style.css" = "/books" ++ rest :=
  safe_join_result_prefixed_by_directory [] "/books"
    ["overview", "build", "overview", "_static", "style.css"]
    "/books/overview/build/overview/_static/style.css" (by decide)

/-- A segment satisfying the rejection condition is rejected by the loop
body. -/
theorem checkSegment_none_of_escape (altSeps : List Char) (f : String)
    (h : escapeAttempt altSeps f = true) : checkSegment altSeps f = none := by
  simp only [escapeAttempt, Bool.or_eq_true] at h
  simp only [checkSegment]
  rcases h with h1 | h2
  · rw [h1]; rfl
  · split
    · rfl
    · rw [if_pos (by simp only [Bool.or_eq_true]; tauto)]

/-- C2 (amended): whenever some untrusted segment — after the normalization
applied to non-empty segments — contains a platform-alternate separator, is
an absolute path, is exactly `..`, or begins with `../`, `safe_join` returns
the rejection sentinel `none`, never a resolved path. -/
theorem safe_join_none_of_escape (altSeps : List Char) (directory : String)
    (pathnames : List String)
    (h : ∃ f ∈ pathnames, escapeAttempt altSeps f = true) :
    safe_join altSeps directory pathnames = none := by
  obtain ⟨f, hmem, hesc⟩ := h
  unfold safe_join
  suffices hs : checkSegments altSeps pathnames = none by rw [hs]; rfl
  induction pathnames with
  | nil => cases hmem
  | cons g gs ih =>
    rcases List.mem_cons.mp hmem with rfl | hmem2
    · simp only [checkSegments, checkSegment_none_of_escape altSeps f hesc]
    · simp only [checkSegments]
      cases hc : checkSegment altSeps g with
      | none => rfl
      | some x => rw [ih hmem2]; rfl

/-- C2 counterexample: the segment `"a/../b"` contains `..`, yet `safe_join`
accepts it (the inner `..` normalizes away) and returns a path — inside the
base directory — rather than the rejection sentinel. -/
theorem safe_join_accepts_segment_containing_dotdot :
    (∃ pre post, "a/../b" = pre ++ ".." ++ post) ∧
    safe_join [] "/base" ["a/../b"] = some "/base/b" :=
  ⟨⟨"a/", "/b", by decide⟩, by decide⟩

/-- Witness for `safe_join_none_of_escape` at a concrete traversal input. -/
theorem safe_join_none_of_escape_witness :
    safe_join [] "/books" ["../../etc/passwd"] = none :=
  safe_join_none_of_escape [] "/books" ["../../etc/passwd"]
    ⟨"../../etc/passwd", by decide, by decide⟩

/-- C3: a static-asset request whose filepath `safe_join` rejects does not
answer 404 like a missing file: the rejected `None` reaches
`os.path.exists`, which raises `TypeError` — an unhandled server error,
distinguishable from the 404 a genuinely missing file yields (third
conjunct) — though file contents are indeed never returned.  Evaluated at
the spec's example traversal `../../etc/passwd`, with `/etc/passwd` present
on disk. -/
theorem static_asset_traversal_raises_typeerror :
    safe_join [] "/books"
      ["overview", "build", "overview", "_static", "../../etc/passwd"] = none ∧
    return_static_asset cfgEx [] courseStoreEx ["/etc/passwd"]
      "overview" "_static" "../../etc/passwd" =
      .error (.typeError
        "stat: path should be string, bytes, os.PathLike or integer, not NoneType") ∧
    return_static_asset cfgEx [] courseStoreEx ["/etc/passwd"]
      "overview" "_static" "missing.css" = .ok (.httpError 404 "") :=
  ⟨by decide, by decide, by decide⟩

/-- C4: a page request naming an absent course yields the 404 the claim
states, but the static-asset handler dereferences the `None` course row —
`course_row.base_course` raises `AttributeError`, an unhandled server error,
not a 404.  Evaluated at a concrete absent course name. -/
theorem missing_course_page_404_but_static_raises :
    (serve_page cfgEx [] collabEx none "nosuch" "index.html").response =
      .ok (.httpError 404 "Course nosuch not found") ∧
    return_static_asset cfgEx [] courseStoreEx [] "nosuch" "_static" "style.css" =
      .error (.attributeError "NoneType object has no attribute base_course") :=
  ⟨by decide, by decide⟩

/-- C5: every record `log_book_event` persists carries the subject id
resolved from the session (`"Anonymous"` when unauthenticated) and the
server clock, and the persisted records do not depend on the sid and
timestamp supplied in the payload: two payloads equal outside those two
fields produce the same result. -/
theorem log_book_event_ignores_client_sid_timestamp (user : Option User)
    (now : Nat) (e2t : String → Option String) (useinfoOk : UseinfoEntry → Bool)
    (genIdx : Option Nat) (e1 e2 : LogItemIncoming)
    (hev : e1.event = e2.event) (hact : e1.act = e2.act)
    (hdiv : e1.div_id = e2.div_id) (hcourse : e1.course_name = e2.course_name)
    (hextra : e1.extra = e2.extra) :
    ((log_book_event user now e2t useinfoOk genIdx e1).records.all
      (recordStamped user now)) = true ∧
    log_book_event user now e2t useinfoOk genIdx e1 =
      log_book_event user now e2t useinfoOk genIdx e2 := by
  have hstamp : stampEntry user now e1 = stampEntry user now e2 := by
    cases e1; cases e2
    simp only [LogItemIncoming.mk.injEq] at hev hact hdiv hcourse hextra ⊢
    simp [stampEntry, hev, hact, hdiv, hcourse, hextra]
  constructor
  · simp only [log_book_event]
    split
    · cases h2 : e2t (stampEntry user now e1).event <;>
        simp [h2, recordStamped, toUseinfo, stampEntry]
    · simp
  · simp only [log_book_event, hstamp]

/-- Witness for `log_book_event_ignores_client_sid_timestamp`: two concrete
payloads differing only in their sid and timestamp fields. -/
theorem log_book_event_ignores_client_sid_timestamp_witness :
    ((log_book_event none 42 (fun _ => none) (fun _ => true) (some 7)
      { event := "page", act := "view", div_id := "d", course_name := "c",
        sid := "alice", timestamp := 1, extra := [] }).records.all
      (recordStamped none 42)) = true ∧
    log_book_event none 42 (fun _ => none) (fun _ => true) (some 7)
      { event := "page", act := "view", div_id := "d", course_name := "c",
        sid := "alice", timestamp := 1, extra := [] } =
    log_book_event none 42 (fun _ => none) (fun _ => true) (some 7)
      { event := "page", act := "view", div_id := "d", course_name := "c",
        sid := "bob", timestamp := 2, extra := [] } :=
  log_book_event_ignores_client_sid_timestamp none 42 (fun _ => none)
    (fun _ => true) (some 7) _ _ rfl rfl rfl rfl rfl

/-- C6: a payload passing revalidation persists exactly one record — the
primary event, no answer record — when its kind is outside `EVENT2TABLE`,
and exactly two — the primary event plus one answer record — when its kind
is in `EVENT2TABLE`. -/
theorem log_book_event_record_counts (user : Option User) (now : Nat)
    (e2t : String → Option String) (useinfoOk : UseinfoEntry → Bool)
    (genIdx : Option Nat) (entry : LogItemIncoming)
    (hvalid : useinfoOk (toUseinfo (stampEntry user now entry)) = true) :
    (log_book_event user now e2t useinfoOk genIdx entry).records.length =
      (match e2t entry.event with | none => 1 | some _ => 2) ∧
    (log_book_event user now e2t useinfoOk genIdx entry).records.countP
      (fun r => isAnswerRecord r) =
      (match e2t entry.event with | none => 0 | some _ => 1) := by
  have hev : (stampEntry user now entry).event = entry.event := rfl
  simp only [log_book_event, hvalid, if_true, hev]
  cases e2t entry.event with
  | none => simp [isAnswerRecord, List.countP_cons, List.countP_nil]
  | some table => simp [isAnswerRecord, List.countP_cons, List.countP_nil]

/-- Witness for `log_book_event_record_counts`: a concrete `mChoice` payload
against a table map holding `mChoice`, yielding two records, one of them an
answer record. -/
theorem log_book_event_record_counts_witness :
    (log_book_event none 42
      (fun e => if e == "mChoice" then some "mchoice_answers" else none)
      (fun _ => true) (some 7)
      { event := "mChoice", act := "answer", div_id := "q1",
        course_name := "c", sid := "alice", timestamp := 1,
        extra := [("answer", "b"), ("correct", "T")] }).records.length = 2 ∧
    (log_book_event none 42
      (fun e => if e == "mChoice" then some "mchoice_answers" else none)
      (fun _ => true) (some 7)
      { event := "mChoice", act := "answer", div_id := "q1",
        course_name := "c", sid := "alice", timestamp := 1,
        extra := [("answer", "b"), ("correct", "T")] }).records.countP
      (fun r => isAnswerRecord r) = 1 := by
  have h := log_book_event_record_counts none 42
    (fun e => if e == "mChoice" then some "mchoice_answers" else none)
    (fun _ => true) (some 7)
    { event := "mChoice", act := "answer", div_id := "q1",
      course_name := "c", sid := "alice", timestamp := 1,
      extra := [("answer", "b"), ("correct", "T")] } (by decide)
  simpa using h

/-- C7: an anonymous request for an existing course whose login-required
flag is set redirects to the login location, renders no template and
inserts no event. -/
theorem anonymous_login_required_redirects (cfg : Settings) (altSeps : List Char)
    (collab : Collaborators) (course_name pagepath : String) (row : CourseRow)
    (hc : collab.courses course_name = some row)
    (hl : row.login_required = true) :
    serve_page cfg altSeps collab none course_name pagepath =
      { response := .ok (.redirect cfg.login_url), events := [] } := by
  simp [serve_page, hc, hl]

/-- Witness for `anonymous_login_required_redirects` on the concrete
login-required `secret` course. -/
theorem anonymous_login_required_redirects_witness :
    serve_page cfgEx [] collabEx none "secret" "index.html" =
      { response := .ok (.redirect cfgEx.login_url), events := [] } :=
  anonymous_login_required_redirects cfgEx [] collabEx "secret" "index.html"
    secretRow (by decide) rfl

/-- C8 counterexample: with a course attribute literally named `user_id`,
the request produces no template context holding the attribute value — the
`dict(...)` call raises `TypeError` and the request fails with an unhandled
server error instead of silently overriding the fixed value. -/
theorem course_attr_shadow_counterexample :
    (serve_page cfgEx [] collabShadow none "overview" "index.html").response =
      .error (.typeError "dict() got multiple values for keyword argument") := by
  decide

/-- C8 (amended): course attributes are merged after the fixed keys, but a
course attribute whose key equals a fixed context key does not silently
override the fixed value — the `dict(...)` call raises `TypeError`
(duplicate keyword argument) and the request fails with an unhandled
server error. -/
theorem course_attr_collision_raises_typeerror (cfg : Settings)
    (altSeps : List Char) (collab : Collaborators) (user : Option User)
    (course_name pagepath : String) (row : CourseRow) (d : String)
    (hc : collab.courses course_name = some row)
    (hl : (row.login_required && user.isNone) = false)
    (hm : userMismatch user course_name = false)
    (ht : safe_join altSeps cfg.book_path
      [row.base_course, "published", row.base_course] = some d)
    (hcol : (withCompareDefault (collab.attrsOf row.id)).any
      (fun kv => fixedCtxKeys.contains kv.1) = true) :
    (serve_page cfg altSeps collab user course_name pagepath).response =
      .error (.typeError "dict() got multiple values for keyword argument") := by
  simp [serve_page, hc, hl, hm, ht, buildContext, fixedContext_keys]
  rw [if_pos hcol]

/-- Witness for `course_attr_collision_raises_typeerror` at the concrete
`user_id` course attribute. -/
theorem course_attr_collision_raises_typeerror_witness :
    (serve_page cfgEx [] collabShadow none "overview" "page.html").response =
      .error (.typeError "dict() got multiple values for keyword argument") :=
  course_attr_collision_raises_typeerror cfgEx [] collabShadow none "overview"
    "page.html" overviewRow "/books/overview/published/overview"
    (by decide) (by decide) (by decide) (by decide) (by decide)

/-- C9: a request that passes the course and access checks but names a
missing template fails with the 404 naming the page and base course, yet
exactly one page-view event has already been persisted — the 404 is not
atomic with respect to the event store. -/
theorem view_event_persisted_before_template_404 (cfg : Settings)
    (altSeps : List Char) (collab : Collaborators) (user : Option User)
    (course_name pagepath : String) (row : CourseRow) (d : String)
    (hc : collab.courses course_name = some row)
    (hl : (row.login_required && user.isNone) = false)
    (hm : userMismatch user course_name = false)
    (ht : safe_join altSeps cfg.book_path
      [row.base_course, "published", row.base_course] = some d)
    (hcol : (withCompareDefault (collab.attrsOf row.id)).any
      (fun kv => fixedCtxKeys.contains kv.1) = false)
    (hmiss : collab.templateExists d pagepath = false) :
    serve_page cfg altSeps collab user course_name pagepath =
      { response := .ok (.httpError 404
          ("Page " ++ pagepath ++ " not found in base course " ++
            row.base_course ++ ".")),
        events := [{ event := "page", act := "view", div_id := pagepath,
                     course_id := course_name, sid := sidOf user,
                     timestamp := collab.now }] } := by
  simp [serve_page, hc, hl, hm, ht, buildContext, fixedContext_keys, hmiss]
  rw [if_neg (by rw [hcol]; exact Bool.false_ne_true)]

/-- Witness for `view_event_persisted_before_template_404` on a concrete
missing page of the `overview` course. -/
theorem view_event_persisted_before_template_404_witness :
    serve_page cfgEx [] collabEx none "overview" "missing.html" =
      { response := .ok (.httpError 404
          "Page missing.html not found in base course overview."),
        events := [{ event := "page", act := "view", div_id := "missing.html",
                     course_id := "overview", sid := "Anonymous",
                     timestamp := 1700000000 }] } := by
  have h := view_event_persisted_before_template_404 cfgEx [] collabEx none
    "overview" "missing.html" overviewRow "/books/overview/published/overview"
    (by decide) (by decide) (by decide) (by decide) (by decide) (by decide)
  exact h.trans (by decide)

/-- Lookup on a non-empty key-value list: the head answers when its key
matches, otherwise the tail is consulted. -/
theorem dictGet_cons (kv : String × α) (rest : List (String × α)) (q : String) :
    dictGet (kv :: rest) q =
      if kv.1 == q then some kv.2 else dictGet rest q := by
  cases h : kv.1 == q <;> simp [dictGet, List.find?, h]

/-- Setting a key then looking up: the set key maps to the new value, every
other key to its previous value. -/
theorem dictGet_dictSet (values : List (String × α)) (k q : String) (v : α) :
    dictGet (dictSet values k v) q =
      if q = k then some v else dictGet values q := by
  induction values with
  | nil =>
    show dictGet [(k, v)] q = if q = k then some v else dictGet [] q
    rw [dictGet_cons]
    by_cases h : q = k
    · subst h; simp
    · have hkq : (k == q) = false := beq_eq_false_iff_ne.mpr fun hh => h hh.symm
      simp [hkq, h, dictGet]
  | cons kv rest ih =>
    by_cases h1 : (kv.1 == k) = true
    · show dictGet (if kv.1 == k then (k, v) :: rest else kv :: dictSet rest k v) q = _
      rw [if_pos h1, dictGet_cons, dictGet_cons]
      by_cases h2 : q = k
      · subst h2; simp
      · have hkq : (k == q) = false := beq_eq_false_iff_ne.mpr fun hh => h2 hh.symm
        have hkvq : (kv.1 == q) = false := by rw [beq_iff_eq.mp h1]; exact hkq
        simp [hkq, hkvq, h2]
    · have h1f : (kv.1 == k) = false := by simpa using h1
      show dictGet (if kv.1 == k then (k, v) :: rest else kv :: dictSet rest k v) q = _
      rw [if_neg (by simp [h1f]), dictGet_cons, dictGet_cons, ih]
      by_cases h2 : q = k
      · subst h2; simp [h1f]
      · simp [h2]

/-- C10: with an existing decoded cookie mapping, the rewritten cookie maps
`tz_offset` to the request offset and every other key to its previous
value; with no cookie the rewritten cookie holds only the `tz_offset`
key. -/
theorem set_tz_offset_merges (values : List (String × JsonVal)) (off : Int)
    (k : String) :
    dictGet (set_tz_offset (some values) off) k =
      (if k = "tz_offset" then some (JsonVal.num off) else dictGet values k) ∧
    set_tz_offset none off = [("tz_offset", JsonVal.num off)] :=
  ⟨dictGet_dictSet values "tz_offset" k (JsonVal.num off), rfl⟩

end BookServer
